import Mathlib

/-!
# Verification of the `linux-trace-error` error-provenance tracer

Shallow embedding of the repository's error recorder and of the
instrumented call sites the claims refer to.

The recorder (`src/unnamed/part_000` and `src/include/linux/trace_error.h`):

```c
struct last_err {
    const char  *file;
    unsigned int line;
    int          errno;
};

void set_last_err(const char *file, unsigned int line, int errno)
{
    struct last_err *last_err;
    if (!in_task())
        return;
    last_err = &current->last_err;
    last_err->file = file;
    last_err->line = line;
    last_err->errno = errno;
}

#define ERR(errno) ({ set_last_err(__FILE__, __LINE__, errno); errno; })
```

The ambient kernel facts `in_task()` and `current` are modelled as an
explicit execution context (`TraceCtx`), and the collection of every
task's embedded `last_err` record as an explicit state
(`KernelState`, a total map from task id to record).  `set_last_err`
becomes a state transformer and `ERR` a state transformer paired with
the value of the wrapped expression.
-/

/-- The `struct last_err` record embedded in each task
(`src/include/linux/trace_error.h`, lines 8-12). -/
structure last_err where
  file : String
  line : Nat
  errno : Int
deriving DecidableEq, Repr

/-- The part of `struct task_struct` relevant here: its embedded
`last_err` record. -/
structure task_struct where
  last_err : last_err
deriving DecidableEq, Repr

/-- Ambient execution context of a call into the recorder: the value
of `in_task()` and the id of `current` (meaningful only when
`in_task = true`). -/
structure TraceCtx where
  in_task : Bool
  current : Nat
deriving DecidableEq, Repr

/-- The state the recorder can touch: every task's own control
structure, keyed by task id.  The recorder has no other state (no
globals, no counters). -/
structure KernelState where
  tasks : Nat → task_struct

/-- `set_last_err` (`src/unnamed/part_000`, lines 5-17): if not in
task context, return with no mutation; otherwise overwrite the three
fields of `current`'s embedded record with the supplied values. -/
def set_last_err (file : String) (line : Nat) (errno : Int)
    (ctx : TraceCtx) (st : KernelState) : KernelState :=
  if ctx.in_task = false then st
  else { st with
         tasks := Function.update st.tasks ctx.current ⟨⟨file, line, errno⟩⟩ }

/-- The `ERR(errno)` statement-expression macro
(`src/include/linux/trace_error.h`, lines 16-19): perform the
recording side effect, then evaluate to `errno`. -/
def ERR (file : String) (line : Nat) (errno : Int)
    (ctx : TraceCtx) (st : KernelState) : KernelState × Int :=
  (set_last_err file line errno ctx st, errno)

/-- A call site of the shape `-ERR(X)` (e.g. `return -ERR(EPERM);`):
the value flowing onward is the negation of what `ERR` evaluates to,
while the recording stores `X` itself. -/
def neg_ERR (file : String) (line : Nat) (errno : Int)
    (ctx : TraceCtx) (st : KernelState) : KernelState × Int :=
  let r := ERR file line errno ctx st
  (r.1, -r.2)

/-- A sequence of `set_last_err` calls executed one after the other by
the same execution context (same task, non-concurrently). -/
def runCalls (ctx : TraceCtx) (calls : List (String × Nat × Int))
    (st : KernelState) : KernelState :=
  calls.foldl (fun s c => set_last_err c.1 c.2.1 c.2.2 ctx s) st

/-- Standard Linux errno values (from the uapi `errno` headers, which
the instrumented sources include but which are not themselves part of
this repository; values are the fixed asm-generic ABI constants). -/
def EPERM : Int := 1
def ENOENT : Int := 2

/-- The errno `EIO` (value 5); the primed Lean name avoids a clash
with a core Lean declaration. -/
def EIO' : Int := 5
def ENXIO : Int := 6
def EBADF : Int := 9
def ENOMEM : Int := 12
def EACCES : Int := 13
def EFAULT : Int := 14
def EBUSY : Int := 16
def EEXIST : Int := 17
def ENODEV : Int := 19
def ENOTDIR : Int := 20
def EISDIR : Int := 21
def EINVAL : Int := 22
def ENOTTY : Int := 25
def EFBIG : Int := 27
def ENOSPC : Int := 28
def EROFS : Int := 30
def EMLINK : Int := 31
def EDEADLK : Int := 35
def ENAMETOOLONG : Int := 36
def ENOLCK : Int := 37
def ENOSYS : Int := 38
def ENOTEMPTY : Int := 39
def ELOOP : Int := 40
def EBADRQC : Int := 56
def ETIME : Int := 62
def ENONET : Int := 64
def ECOMM : Int := 70
def EPROTO : Int := 71
def EBADMSG : Int := 74
def EOVERFLOW : Int := 75
def ENOTSOCK : Int := 88
def EMSGSIZE : Int := 90
def EOPNOTSUPP : Int := 95
def EADDRNOTAVAIL : Int := 99
def ENETUNREACH : Int := 101
def ECONNABORTED : Int := 103
def ECONNRESET : Int := 104
def ETIMEDOUT : Int := 110
def ECONNREFUSED : Int := 111
def EHOSTDOWN : Int := 112
def EHOSTUNREACH : Int := 113
def EALREADY : Int := 114
def EREMOTEIO : Int := 121
def EDQUOT : Int := 122
def ENOMEDIUM : Int := 123
def EKEYEXPIRED : Int := 127
def EKEYREJECTED : Int := 129
def ERFKILL : Int := 132
def ENOIOCTLCMD : Int := 515
def ENOTSUPP : Int := 524

/-- A concrete kernel state used to instantiate witnesses: every
task's record starts zero-initialized, as at task creation. -/
def initState : KernelState :=
  ⟨fun _ => ⟨⟨"", 0, 0⟩⟩⟩

/-- Replaying a list of recorded triples through `set_last_err`, in
order, in a fixed context: the effect on kernel state of the
recordings an instrumented function performs while it runs. -/
def applyLog (ctx : TraceCtx) (log : List last_err)
    (st : KernelState) : KernelState :=
  log.foldl (fun s r => set_last_err r.file r.line r.errno ctx s) st

/-! ## Instrumented call sites (claim C6)

The call-site models return the function's C return value together
with the ordered list of `set_last_err` recordings its evaluation
performs.  Outcomes of calls into code outside these functions
(user-space copies, allocation, the callees' results) are inputs. -/

/-- Outcomes of the fallible steps inside `snd_hwdep_dsp_load_compat`
(`src/sound/core/hwdep_compat.c`, lines 19-42).  Each Boolean tells
whether the corresponding user-copy step (the whole `||` condition of
the `if`) failed; `dsp_load_result` is what `snd_hwdep_dsp_load`
returns when reached. -/
structure DspLoadEnv where
  copy_in_user_fails : Bool
  copy_image_fails : Bool
  copy_length_fails : Bool
  copy_driver_data_fails : Bool
  dsp_load_result : Int
deriving DecidableEq, Repr

/-- `snd_hwdep_dsp_load_compat` (`src/sound/core/hwdep_compat.c`,
lines 19-42): every failed user copy returns bare `-EFAULT` with no
recording; otherwise the result of `snd_hwdep_dsp_load` is returned.
No `ERR` wrapper occurs anywhere in the function. -/
def snd_hwdep_dsp_load_compat (env : DspLoadEnv) : Int × List last_err :=
  if env.copy_in_user_fails then (-EFAULT, [])
  else if env.copy_image_fails then (-EFAULT, [])
  else if env.copy_length_fails then (-EFAULT, [])
  else if env.copy_driver_data_fails then (-EFAULT, [])
  else (env.dsp_load_result, [])

/-- The `cmd` classification made by the `switch` in
`snd_hwdep_ioctl_compat` (`src/sound/core/hwdep_compat.c`,
lines 53-60). -/
inductive HwdepCmd where
  | pversion
  | info
  | dsp_status
  | dsp_load32
  | other
deriving DecidableEq, Repr

/-- Inputs of `snd_hwdep_ioctl_compat`: the command, the results of
the callees, and whether `hw->ops.ioctl_compat` is non-NULL. -/
structure HwdepIoctlEnv where
  cmd : HwdepCmd
  hwdep_ioctl_result : Int
  dsp_load_env : DspLoadEnv
  has_ioctl_compat : Bool
  ops_ioctl_compat_result : Int
deriving DecidableEq, Repr

/-- `snd_hwdep_ioctl_compat` (`src/sound/core/hwdep_compat.c`,
lines 48-64): the fall-through path `return -ERR(ENOIOCTLCMD);` at
line 63 records `(file, 63, ENOIOCTLCMD)` and returns the negated
code; every other path records nothing in this function. -/
def snd_hwdep_ioctl_compat (env : HwdepIoctlEnv) : Int × List last_err :=
  match env.cmd with
  | .pversion => (env.hwdep_ioctl_result, [])
  | .info => (env.hwdep_ioctl_result, [])
  | .dsp_status => (env.hwdep_ioctl_result, [])
  | .dsp_load32 => snd_hwdep_dsp_load_compat env.dsp_load_env
  | .other =>
      if env.has_ioctl_compat then (env.ops_ioctl_compat_result, [])
      else (-ENOIOCTLCMD,
            [⟨"sound/core/hwdep_compat.c", 63, ENOIOCTLCMD⟩])

/-- The translation-unit name of `src/unnamed/part_002` (the SST ACPI
loader); the real path is not recorded in the sources, so the
unnamed-part path stands for the string `__FILE__` expands to there.
Line numbers are those of `src/unnamed/part_002`. -/
def sstAcpiFile : String := "src/unnamed/part_002"

/-- Inputs of `sst_acpi_probe` (`src/unnamed/part_002`, lines 74-160):
whether `devm_kzalloc` returned NULL, whether `acpi_match_device`
returned NULL, whether `snd_soc_acpi_find_machine` returned NULL, and
the result of the remainder of the function (lines 100-159, which
contain no `ERR` wrapper). -/
structure SstAcpiProbeEnv where
  devm_kzalloc_fails : Bool
  acpi_match_device_fails : Bool
  find_machine_fails : Bool
  rest_result : Int
deriving DecidableEq, Repr

/-- `sst_acpi_probe` (`src/unnamed/part_002`, lines 74-160): the
allocation failure returns bare `-ENOMEM` (line 87, excluded code,
never wrapped, no recording); the two `return -ERR(ENODEV);` sites
(lines 91 and 97) record and return `-ENODEV`. -/
def sst_acpi_probe (env : SstAcpiProbeEnv) : Int × List last_err :=
  if env.devm_kzalloc_fails then (-ENOMEM, [])
  else if env.acpi_match_device_fails then
    (-ENODEV, [⟨sstAcpiFile, 91, ENODEV⟩])
  else if env.find_machine_fails then
    (-ENODEV, [⟨sstAcpiFile, 97, ENODEV⟩])
  else (env.rest_result, [])

/-! ## `fs/afs/misc.c` (claim C7)

`afs_abort_to_error` maps an AFS abort code to a negated errno; every
branch of its `switch`, the `default` included, is a
`return -ERR(...)` and therefore records.  The abort-code constants
(`VSALVAGE`, `AFSVL_*`, `UAE*`, `RXKAD*`, `RXGEN_OPCODE`) are defined
in AFS protocol headers that are not part of the provided sources, so
the embedding is parametric in their (pairwise distinct) values; the
three literal cases `13`, `27`, `30` come first exactly as in the
source, so results on those inputs do not depend on the parameters. -/

/-- The abort-code constants used as `case` labels by
`afs_abort_to_error` (`src/fs/afs/misc.c`, lines 18-109), in source
order.  Their numeric values live in headers outside the provided
sources.  The field for the constant `AFSVL_IO` carries a primed Lean
name. -/
structure AfsAbortConsts where
  VSALVAGE : Nat
  VNOVNODE : Nat
  VNOVOL : Nat
  VVOLEXISTS : Nat
  VNOSERVICE : Nat
  VOFFLINE : Nat
  VONLINE : Nat
  VDISKFULL : Nat
  VOVERQUOTA : Nat
  VBUSY : Nat
  VMOVED : Nat
  AFSVL_IDEXIST : Nat
  AFSVL_IO' : Nat
  AFSVL_NAMEEXIST : Nat
  AFSVL_CREATEFAIL : Nat
  AFSVL_NOENT : Nat
  AFSVL_EMPTY : Nat
  AFSVL_ENTDELETED : Nat
  AFSVL_BADNAME : Nat
  AFSVL_BADINDEX : Nat
  AFSVL_BADVOLTYPE : Nat
  AFSVL_BADSERVER : Nat
  AFSVL_BADPARTITION : Nat
  AFSVL_REPSFULL : Nat
  AFSVL_NOREPSERVER : Nat
  AFSVL_DUPREPSERVER : Nat
  AFSVL_RWNOTFOUND : Nat
  AFSVL_BADREFCOUNT : Nat
  AFSVL_SIZEEXCEEDED : Nat
  AFSVL_BADENTRY : Nat
  AFSVL_BADVOLIDBUMP : Nat
  AFSVL_IDALREADYHASHED : Nat
  AFSVL_ENTRYLOCKED : Nat
  AFSVL_BADVOLOPER : Nat
  AFSVL_BADRELLOCKTYPE : Nat
  AFSVL_RERELEASE : Nat
  AFSVL_BADSERVERFLAG : Nat
  AFSVL_PERM : Nat
  AFSVL_NOMEM : Nat
  UAEPERM : Nat
  UAENOENT : Nat
  UAEACCES : Nat
  UAEBUSY : Nat
  UAEEXIST : Nat
  UAENOTDIR : Nat
  UAEISDIR : Nat
  UAEFBIG : Nat
  UAENOSPC : Nat
  UAEROFS : Nat
  UAEMLINK : Nat
  UAEDEADLK : Nat
  UAENAMETOOLONG : Nat
  UAENOLCK : Nat
  UAENOTEMPTY : Nat
  UAELOOP : Nat
  UAEOVERFLOW : Nat
  UAENOMEDIUM : Nat
  UAEDQUOT : Nat
  RXKADINCONSISTENCY : Nat
  RXKADPACKETSHORT : Nat
  RXKADLEVELFAIL : Nat
  RXKADTICKETLEN : Nat
  RXKADOUTOFSEQUENCE : Nat
  RXKADNOAUTH : Nat
  RXKADBADKEY : Nat
  RXKADBADTICKET : Nat
  RXKADUNKNOWNKEY : Nat
  RXKADEXPIRED : Nat
  RXKADSEALEDINCON : Nat
  RXKADDATALEN : Nat
  RXKADILLEGALLEVEL : Nat
  RXGEN_OPCODE : Nat
deriving DecidableEq, Repr

/-- One `return -ERR(x);` branch of `afs_abort_to_error` at the given
line of `fs/afs/misc.c`: records `(file, line, x)` and evaluates to
`-x`. -/
def afs_ret (line : Nat) (x : Int) : Int × List last_err :=
  (-x, [⟨"fs/afs/misc.c", line, x⟩])

/-- `afs_abort_to_error` (`src/fs/afs/misc.c`, lines 18-109): the
`switch (abort_code)` embedded as a first-match equality chain in
source order (legal `case` labels are pairwise distinct, so the chain
agrees with the `switch`). -/
def afs_abort_to_error (k : AfsAbortConsts) (abort_code : Nat) :
    Int × List last_err :=
  if abort_code = 13 then afs_ret 22 EACCES
  else if abort_code = 27 then afs_ret 23 EFBIG
  else if abort_code = 30 then afs_ret 24 EROFS
  else if abort_code = k.VSALVAGE then afs_ret 27 EIO'
  else if abort_code = k.VNOVNODE then afs_ret 28 ENOENT
  else if abort_code = k.VNOVOL then afs_ret 29 ENOMEDIUM
  else if abort_code = k.VVOLEXISTS then afs_ret 30 EEXIST
  else if abort_code = k.VNOSERVICE then afs_ret 31 EIO'
  else if abort_code = k.VOFFLINE then afs_ret 32 ENOENT
  else if abort_code = k.VONLINE then afs_ret 33 EEXIST
  else if abort_code = k.VDISKFULL then afs_ret 34 ENOSPC
  else if abort_code = k.VOVERQUOTA then afs_ret 35 EDQUOT
  else if abort_code = k.VBUSY then afs_ret 36 EBUSY
  else if abort_code = k.VMOVED then afs_ret 37 ENXIO
  else if abort_code = k.AFSVL_IDEXIST then afs_ret 40 EEXIST
  else if abort_code = k.AFSVL_IO' then afs_ret 41 EREMOTEIO
  else if abort_code = k.AFSVL_NAMEEXIST then afs_ret 42 EEXIST
  else if abort_code = k.AFSVL_CREATEFAIL then afs_ret 43 EREMOTEIO
  else if abort_code = k.AFSVL_NOENT then afs_ret 44 ENOMEDIUM
  else if abort_code = k.AFSVL_EMPTY then afs_ret 45 ENOMEDIUM
  else if abort_code = k.AFSVL_ENTDELETED then afs_ret 46 ENOMEDIUM
  else if abort_code = k.AFSVL_BADNAME then afs_ret 47 EINVAL
  else if abort_code = k.AFSVL_BADINDEX then afs_ret 48 EINVAL
  else if abort_code = k.AFSVL_BADVOLTYPE then afs_ret 49 EINVAL
  else if abort_code = k.AFSVL_BADSERVER then afs_ret 50 EINVAL
  else if abort_code = k.AFSVL_BADPARTITION then afs_ret 51 EINVAL
  else if abort_code = k.AFSVL_REPSFULL then afs_ret 52 EFBIG
  else if abort_code = k.AFSVL_NOREPSERVER then afs_ret 53 ENOENT
  else if abort_code = k.AFSVL_DUPREPSERVER then afs_ret 54 EEXIST
  else if abort_code = k.AFSVL_RWNOTFOUND then afs_ret 55 ENOENT
  else if abort_code = k.AFSVL_BADREFCOUNT then afs_ret 56 EINVAL
  else if abort_code = k.AFSVL_SIZEEXCEEDED then afs_ret 57 EINVAL
  else if abort_code = k.AFSVL_BADENTRY then afs_ret 58 EINVAL
  else if abort_code = k.AFSVL_BADVOLIDBUMP then afs_ret 59 EINVAL
  else if abort_code = k.AFSVL_IDALREADYHASHED then afs_ret 60 EINVAL
  else if abort_code = k.AFSVL_ENTRYLOCKED then afs_ret 61 EBUSY
  else if abort_code = k.AFSVL_BADVOLOPER then afs_ret 62 EBADRQC
  else if abort_code = k.AFSVL_BADRELLOCKTYPE then afs_ret 63 EINVAL
  else if abort_code = k.AFSVL_RERELEASE then afs_ret 64 EREMOTEIO
  else if abort_code = k.AFSVL_BADSERVERFLAG then afs_ret 65 EINVAL
  else if abort_code = k.AFSVL_PERM then afs_ret 66 EACCES
  else if abort_code = k.AFSVL_NOMEM then afs_ret 67 EREMOTEIO
  else if abort_code = k.UAEPERM then afs_ret 70 EPERM
  else if abort_code = k.UAENOENT then afs_ret 71 ENOENT
  else if abort_code = k.UAEACCES then afs_ret 72 EACCES
  else if abort_code = k.UAEBUSY then afs_ret 73 EBUSY
  else if abort_code = k.UAEEXIST then afs_ret 74 EEXIST
  else if abort_code = k.UAENOTDIR then afs_ret 75 ENOTDIR
  else if abort_code = k.UAEISDIR then afs_ret 76 EISDIR
  else if abort_code = k.UAEFBIG then afs_ret 77 EFBIG
  else if abort_code = k.UAENOSPC then afs_ret 78 ENOSPC
  else if abort_code = k.UAEROFS then afs_ret 79 EROFS
  else if abort_code = k.UAEMLINK then afs_ret 80 EMLINK
  else if abort_code = k.UAEDEADLK then afs_ret 81 EDEADLK
  else if abort_code = k.UAENAMETOOLONG then afs_ret 82 ENAMETOOLONG
  else if abort_code = k.UAENOLCK then afs_ret 83 ENOLCK
  else if abort_code = k.UAENOTEMPTY then afs_ret 84 ENOTEMPTY
  else if abort_code = k.UAELOOP then afs_ret 85 ELOOP
  else if abort_code = k.UAEOVERFLOW then afs_ret 86 EOVERFLOW
  else if abort_code = k.UAENOMEDIUM then afs_ret 87 ENOMEDIUM
  else if abort_code = k.UAEDQUOT then afs_ret 88 EDQUOT
  else if abort_code = k.RXKADINCONSISTENCY then afs_ret 91 EPROTO
  else if abort_code = k.RXKADPACKETSHORT then afs_ret 92 EPROTO
  else if abort_code = k.RXKADLEVELFAIL then afs_ret 93 EKEYREJECTED
  else if abort_code = k.RXKADTICKETLEN then afs_ret 94 EKEYREJECTED
  else if abort_code = k.RXKADOUTOFSEQUENCE then afs_ret 95 EPROTO
  else if abort_code = k.RXKADNOAUTH then afs_ret 96 EKEYREJECTED
  else if abort_code = k.RXKADBADKEY then afs_ret 97 EKEYREJECTED
  else if abort_code = k.RXKADBADTICKET then afs_ret 98 EKEYREJECTED
  else if abort_code = k.RXKADUNKNOWNKEY then afs_ret 99 EKEYREJECTED
  else if abort_code = k.RXKADEXPIRED then afs_ret 100 EKEYEXPIRED
  else if abort_code = k.RXKADSEALEDINCON then afs_ret 101 EKEYREJECTED
  else if abort_code = k.RXKADDATALEN then afs_ret 102 EKEYREJECTED
  else if abort_code = k.RXKADILLEGALLEVEL then afs_ret 103 EKEYREJECTED
  else if abort_code = k.RXGEN_OPCODE then afs_ret 105 ENOTSUPP
  else afs_ret 107 EREMOTEIO

/-- An arbitrary concrete instantiation of the abort-code constants,
used only to state closed counterexamples and witnesses on inputs
(the literal cases `13`, `27`, `30`) whose outcome does not depend on
these values because the literal cases are tested first. -/
def sampleAbortConsts : AfsAbortConsts :=
  ⟨101, 102, 103, 104, 105, 106, 107, 108, 109, 110, 111,
   201, 202, 203, 204, 205, 206, 207, 208, 209, 210, 211, 212, 213,
   214, 215, 216, 217, 218, 219, 220, 221, 222, 223, 224, 225, 226,
   227, 228,
   301, 302, 303, 304, 305, 306, 307, 308, 309, 310, 311, 312, 313,
   314, 315, 316, 317, 318, 319,
   401, 402, 403, 404, 405, 406, 407, 408, 409, 410, 411, 412, 413,
   455⟩

/-- The `struct afs_error` accumulator of `afs_prioritise_error`
(fields used by `src/fs/afs/misc.c`: `error` and `responded`). -/
structure afs_error where
  error : Int
  responded : Bool
deriving DecidableEq, Repr

/-- The entry point into the fall-through chain of the `switch` of
`afs_prioritise_error` (`src/fs/afs/misc.c`, lines 114-170): which
`case` label (other than `0` and `-ECONNABORTED`) the value of
`error` selects; `0` stands for `default`. -/
def afs_entry (error : Int) : Nat :=
  if error = -ETIMEDOUT ∨ error = -ETIME then 1
  else if error = -ENOMEM ∨ error = -ENONET then 2
  else if error = -ERFKILL then 3
  else if error = -EADDRNOTAVAIL then 4
  else if error = -ENETUNREACH then 5
  else if error = -EHOSTUNREACH then 6
  else if error = -EHOSTDOWN then 7
  else if error = -ECONNREFUSED then 8
  else if error = -ECONNRESET then 9
  else 0

/-- The fall-through chain of the `switch` of `afs_prioritise_error`
(`src/fs/afs/misc.c`, lines 119-163), for `error` neither `0` nor
`-ECONNABORTED`: each inner `if` of the source belongs to one block of
the chain and runs exactly when the entry label is at most that
block's index.  No statement in this chain records anything (its error
constants sit only in `case` labels and `==` comparisons, and the
final assignment stores the variable `error`). -/
def afs_prioritise_chain (e : afs_error) (error : Int) : afs_error :=
  let entry := afs_entry error
  if entry ≤ 0 ∧ (e.error = -ETIMEDOUT ∨ e.error = -ETIME) then e
  else if entry ≤ 1 ∧ (e.error = -ENOMEM ∨ e.error = -ENONET) then e
  else if entry ≤ 2 ∧ e.error = -ERFKILL then e
  else if entry ≤ 3 ∧ e.error = -EADDRNOTAVAIL then e
  else if entry ≤ 4 ∧ e.error = -ENETUNREACH then e
  else if entry ≤ 5 ∧ e.error = -EHOSTUNREACH then e
  else if entry ≤ 6 ∧ e.error = -EHOSTDOWN then e
  else if entry ≤ 7 ∧ e.error = -ECONNREFUSED then e
  else if entry ≤ 8 ∧ e.error = -ECONNRESET then e
  else if e.responded then e
  else { e with error := error }

/-- `afs_prioritise_error` (`src/fs/afs/misc.c`, lines 114-170): the
`case 0` returns immediately; the `-ECONNABORTED` case sets
`responded` and replaces `error` by the result of
`afs_abort_to_error` (whose recordings are the only ones the function
can make); every other value of `error` enters the non-recording
fall-through chain. -/
def afs_prioritise_error (k : AfsAbortConsts) (e : afs_error)
    (error : Int) (abort_code : Nat) : afs_error × List last_err :=
  if error = 0 then (e, [])
  else if error = -ECONNABORTED then
    let r := afs_abort_to_error k abort_code
    (⟨r.1, true⟩, r.2)
  else (afs_prioritise_chain e error, [])

/-! ## The call-site transformation (claims C7 and C9)

`spatch_errors.sh` (`src/net/nfc/nci/lib.c`, lines 618-672) generates
a Coccinelle patch that rewrites every occurrence of a listed error
constant (all `E...` errno names except `ENOMEM` and `EFAULT`) that
sits inside the right-hand side of an assignment, the initializer of a
declaration, or the operand of a `return`, into `ERR(constant)`; `if`
discriminants and `case` labels are never matched.  The `<+... e ...+>`
pattern binds the position of each occurrence of the constant anywhere
inside the matched rvalue, so a constant already sitting inside a
previously generated `ERR(...)` call is matched again on a second run.
The source language is embedded as a small expression/statement
syntax carrying exactly what the patch discriminates on. -/

/-- C expressions as the patch sees them: a named error constant
(`listed` says whether its identifier is in the generated alternation,
i.e. an `E...` errno name not in the ignore list), negation, an
`ERR(_)` application, or any other value-producing expression. -/
inductive CExpr where
  | const (listed : Bool) (v : Int)
  | neg (a : CExpr)
  | err (a : CExpr)
  | atom (v : Int)
deriving DecidableEq, Repr

/-- The rewrite the generated `patch.cocci` performs on an rvalue:
every occurrence of a listed constant, at any depth, becomes
`ERR(constant)`. -/
def wrapExpr : CExpr → CExpr
  | .const true v => .err (.const true v)
  | .const false v => .const false v
  | .neg a => .neg (wrapExpr a)
  | .err a => .err (wrapExpr a)
  | .atom v => .atom v

/-- Statements as the patch discriminates them: the three patched
rvalue positions, the never-patched `if (x == c)` discriminant and
`case c:` label (whose bodies are still patched, being statements),
sequencing, and the empty statement. -/
inductive CStmt where
  | assign (rhs : CExpr)
  | declInit (rhs : CExpr)
  | ret (rhs : CExpr)
  | ifEqConst (disc : CExpr) (thenS elseS : CStmt)
  | switchCase (label : CExpr) (body : CStmt)
  | seq (a b : CStmt)
  | skip
deriving DecidableEq, Repr

/-- One application of `spatch_errors.sh` to a statement. -/
def wrapStmt : CStmt → CStmt
  | .assign r => .assign (wrapExpr r)
  | .declInit r => .declInit (wrapExpr r)
  | .ret r => .ret (wrapExpr r)
  | .ifEqConst c t e => .ifEqConst c (wrapStmt t) (wrapStmt e)
  | .switchCase c b => .switchCase c (wrapStmt b)
  | .seq a b => .seq (wrapStmt a) (wrapStmt b)
  | .skip => .skip

/-- Evaluation of an expression at a source location `(f, l)`:
the value and the ordered recordings.  `ERR(a)` expands to
`({ set_last_err(__FILE__, __LINE__, a); a; })`, so the argument is
evaluated twice (once inside the `set_last_err` call, once for the
block's value) and the recording stores the argument's value at the
expansion site's file and line. -/
def evalExpr (f : String) (l : Nat) : CExpr → Int × List last_err
  | .const _ v => (v, [])
  | .atom v => (v, [])
  | .neg a =>
      let r := evalExpr f l a
      (-r.1, r.2)
  | .err a =>
      let r := evalExpr f l a
      (r.1, r.2 ++ [⟨f, l, r.1⟩] ++ r.2)

/-- Evaluation of a statement at location `(f, l)` with `x` the value
the `if`/`switch` discriminants compare against: the list of rvalues
produced, in order, and the ordered recordings. -/
def evalStmt (f : String) (l : Nat) (x : Int) : CStmt → List Int × List last_err
  | .skip => ([], [])
  | .assign r =>
      let v := evalExpr f l r
      ([v.1], v.2)
  | .declInit r =>
      let v := evalExpr f l r
      ([v.1], v.2)
  | .ret r =>
      let v := evalExpr f l r
      ([v.1], v.2)
  | .ifEqConst c t e =>
      let cv := evalExpr f l c
      if x = cv.1 then
        let r := evalStmt f l x t
        (r.1, cv.2 ++ r.2)
      else
        let r := evalStmt f l x e
        (r.1, cv.2 ++ r.2)
  | .switchCase c b =>
      let cv := evalExpr f l c
      if x = cv.1 then
        let r := evalStmt f l x b
        (r.1, cv.2 ++ r.2)
      else ([], cv.2)
  | .seq a b =>
      let ra := evalStmt f l x a
      let rb := evalStmt f l x b
      (ra.1 ++ rb.1, ra.2 ++ rb.2)

/-- The observable behavior of a statement: the rvalues it produces
and the final content of the current task's record after it runs (the
last recording, if any; last-write-wins). -/
def stmtBehavior (f : String) (l : Nat) (x : Int) (s : CStmt) :
    List Int × Option last_err :=
  let r := evalStmt f l x s
  (r.1, r.2.getLast?)

/-- **C1.** Transparency of the wrapper: for every file, line, code,
context and state, the value component of `ERR(code)` is exactly
`code`; recording is a side effect only. -/
theorem ERR_transparent (file : String) (line : Nat) (code : Int)
    (ctx : TraceCtx) (st : KernelState) :
    (ERR file line code ctx st).2 = code := rfl

/-- **C2.** Last-write-wins: after a task `t` executes a non-empty
sequence of `set_last_err` calls in task context, `t`'s record holds
exactly the triple of the last call, never an earlier one or a mix. -/
theorem set_last_err_last_write_wins (t : Nat)
    (calls : List (String × Nat × Int)) (c : String × Nat × Int)
    (st : KernelState) :
    (runCalls ⟨true, t⟩ (calls ++ [c]) st).tasks t
      = ⟨⟨c.1, c.2.1, c.2.2⟩⟩ := by
  simp [runCalls, List.foldl_append, set_last_err, Function.update]

/-- **C3.** No-context safety: when `in_task()` is false,
`set_last_err` leaves the whole state unchanged (no task's record
mutates), and the surrounding `ERR(code)` still evaluates to `code`
over the unchanged state. -/
theorem set_last_err_no_context (file : String) (line : Nat)
    (code : Int) (cur : Nat) (st : KernelState) :
    set_last_err file line code ⟨false, cur⟩ st = st
      ∧ ERR file line code ⟨false, cur⟩ st = (st, code) := by
  constructor
  · simp [set_last_err]
  · simp [ERR, set_last_err]

/-- **C4.** Task isolation and frame condition: a `set_last_err`
executed with `current = A` leaves the record of every task `B ≠ A`
unchanged, whatever the `in_task` flag; the state has no component
other than the per-task records, so nothing else is touched. -/
theorem set_last_err_task_isolation (it : Bool) (A B : Nat)
    (file : String) (line : Nat) (code : Int) (st : KernelState)
    (h : B ≠ A) :
    (set_last_err file line code ⟨it, A⟩ st).tasks B = st.tasks B := by
  unfold set_last_err
  cases it with
  | false => simp
  | true => simp [Function.update, h]

theorem set_last_err_task_isolation_witness :
    (1 : Nat) ≠ 0
      ∧ (set_last_err "fs/namei.c" 1269 ENOENT ⟨true, 0⟩ initState).tasks 1
          = initState.tasks 1 :=
  ⟨by decide,
   set_last_err_task_isolation true 0 1 "fs/namei.c" 1269 ENOENT initState
     (by decide)⟩

/-- **C5.** No filtering inside the recorder: in task context,
`set_last_err` overwrites all three fields of the current task's
record with exactly the supplied values for every code whatsoever —
also for the codes the instrumentation excludes (`ENOMEM`, `EFAULT`),
for zero, and for any other integer.  There is no allow/deny list and
no return-code filtering in the recorder itself. -/
theorem set_last_err_no_filtering (file : String) (line : Nat)
    (code : Int) (t : Nat) (st : KernelState) :
    (set_last_err file line code ⟨true, t⟩ st).tasks t
        = ⟨⟨file, line, code⟩⟩
      ∧ (set_last_err file line ENOMEM ⟨true, t⟩ st).tasks t
          = ⟨⟨file, line, ENOMEM⟩⟩
      ∧ (set_last_err file line EFAULT ⟨true, t⟩ st).tasks t
          = ⟨⟨file, line, EFAULT⟩⟩
      ∧ (set_last_err file line 0 ⟨true, t⟩ st).tasks t
          = ⟨⟨file, line, 0⟩⟩ := by
  refine ⟨?_, ?_, ?_, ?_⟩ <;> simp [set_last_err, Function.update]

/-- **C10.** The recorder validates nothing: in task context it stores
exactly the values it is given — any integer code (zero, positive,
or of magnitude at or above 4096), any file string and any line — with
no range check, no sign check and no rejection path; and at a
`-ERR(X)` call site the stored errno is the positive `X` while the
value returned is `-X`. -/
theorem set_last_err_no_validation (file : String) (line : Nat)
    (code : Int) (t : Nat) (st : KernelState) :
    (set_last_err file line code ⟨true, t⟩ st).tasks t
        = ⟨⟨file, line, code⟩⟩
      ∧ (set_last_err file line 4096 ⟨true, t⟩ st).tasks t
          = ⟨⟨file, line, 4096⟩⟩
      ∧ (set_last_err file line (-99999) ⟨true, t⟩ st).tasks t
          = ⟨⟨file, line, -99999⟩⟩
      ∧ (neg_ERR file line code ⟨true, t⟩ st).2 = -code
      ∧ ((neg_ERR file line code ⟨true, t⟩ st).1).tasks t
          = ⟨⟨file, line, code⟩⟩ := by
  refine ⟨?_, ?_, ?_, ?_, ?_⟩ <;>
    simp [set_last_err, neg_ERR, ERR, Function.update]

/-- **C6.** Exclusion correctness at call sites: every failed user
copy in `snd_hwdep_dsp_load_compat` returns bare `-EFAULT` with no
recording (every task's record is left unchanged), `sst_acpi_probe`
returns bare `-ENOMEM` on allocation failure with no recording, while
the non-excluded `-ERR(ENODEV)` returns in `sst_acpi_probe` and the
`-ERR(ENOIOCTLCMD)` return in `snd_hwdep_ioctl_compat` always invoke
`set_last_err` with the corresponding positive code. -/
theorem callsite_exclusion_correctness
    (b2 b3 b4 a2 a3 : Bool) (r ri ro r2 : Int) (denv : DspLoadEnv)
    (ctx : TraceCtx) (st : KernelState) :
    snd_hwdep_dsp_load_compat ⟨true, b2, b3, b4, r⟩ = (-EFAULT, [])
      ∧ snd_hwdep_dsp_load_compat ⟨false, true, b3, b4, r⟩ = (-EFAULT, [])
      ∧ snd_hwdep_dsp_load_compat ⟨false, false, true, b4, r⟩ = (-EFAULT, [])
      ∧ snd_hwdep_dsp_load_compat ⟨false, false, false, true, r⟩ = (-EFAULT, [])
      ∧ applyLog ctx (snd_hwdep_dsp_load_compat ⟨true, b2, b3, b4, r⟩).2 st = st
      ∧ sst_acpi_probe ⟨true, a2, a3, r2⟩ = (-ENOMEM, [])
      ∧ applyLog ctx (sst_acpi_probe ⟨true, a2, a3, r2⟩).2 st = st
      ∧ sst_acpi_probe ⟨false, true, a3, r2⟩
          = (-ENODEV, [⟨sstAcpiFile, 91, ENODEV⟩])
      ∧ sst_acpi_probe ⟨false, false, true, r2⟩
          = (-ENODEV, [⟨sstAcpiFile, 97, ENODEV⟩])
      ∧ snd_hwdep_ioctl_compat ⟨HwdepCmd.other, ri, denv, false, ro⟩
          = (-ENOIOCTLCMD,
             [⟨"sound/core/hwdep_compat.c", 63, ENOIOCTLCMD⟩]) := by
  exact ⟨rfl, rfl, rfl, rfl, rfl, rfl, rfl, rfl, rfl, rfl⟩

/-- **C7 counterexample.** Evaluating `afs_prioritise_error` is not
recording-free: with `error = -ECONNABORTED` and `abort_code = 13` it
calls `afs_abort_to_error`, whose `case 13` executes
`return -ERR(EACCES);` (`src/fs/afs/misc.c`, line 22) and therefore
invokes `set_last_err`, contradicting the claim that evaluating the
function never does. -/
theorem afs_prioritise_error_records_on_ECONNABORTED :
    (afs_prioritise_error sampleAbortConsts ⟨0, false⟩ (-ECONNABORTED) 13).2
        = [⟨"fs/afs/misc.c", 22, EACCES⟩]
      ∧ (afs_prioritise_error sampleAbortConsts
           ⟨0, false⟩ (-ECONNABORTED) 13).2 ≠ [] := by
  exact ⟨by decide, by decide⟩

/-- **C7 (amended).** Error constants in `==` discriminants and `case`
labels are never wrapped: the transformation leaves `if (x == c)`
discriminants and `case c:` labels untouched, and accordingly
`afs_prioritise_error` records nothing for every `error` other than
`-ECONNABORTED`; on `-ECONNABORTED` its recordings are exactly those
of its callee `afs_abort_to_error`, whose constants sit in wrapped
`return` positions — never a recording from a discriminant or label
position. -/
theorem afs_constant_positions_never_record
    (k : AfsAbortConsts) (e : afs_error) (error : Int) (abort_code : Nat)
    (c : CExpr) (s1 s2 : CStmt)
    (h : error ≠ -ECONNABORTED) :
    (afs_prioritise_error k e error abort_code).2 = []
      ∧ (afs_prioritise_error k e (-ECONNABORTED) abort_code).2
          = (afs_abort_to_error k abort_code).2
      ∧ wrapStmt (CStmt.ifEqConst c s1 s2)
          = CStmt.ifEqConst c (wrapStmt s1) (wrapStmt s2)
      ∧ wrapStmt (CStmt.switchCase c s1)
          = CStmt.switchCase c (wrapStmt s1) := by
  refine ⟨?_, ?_, rfl, rfl⟩
  · by_cases h0 : error = 0
    · simp [afs_prioritise_error, h0]
    · simp [afs_prioritise_error, h0, h]
  · simp [afs_prioritise_error, ECONNABORTED]

theorem afs_constant_positions_never_record_witness :
    ((-ETIMEDOUT : Int) ≠ -ECONNABORTED)
      ∧ ((afs_prioritise_error sampleAbortConsts ⟨0, false⟩ (-ETIMEDOUT) 0).2 = []
         ∧ (afs_prioritise_error sampleAbortConsts ⟨0, false⟩ (-ECONNABORTED) 0).2
             = (afs_abort_to_error sampleAbortConsts 0).2
         ∧ wrapStmt (CStmt.ifEqConst (CExpr.atom 0) CStmt.skip CStmt.skip)
             = CStmt.ifEqConst (CExpr.atom 0) (wrapStmt CStmt.skip)
                 (wrapStmt CStmt.skip)
         ∧ wrapStmt (CStmt.switchCase (CExpr.atom 0) CStmt.skip)
             = CStmt.switchCase (CExpr.atom 0) (wrapStmt CStmt.skip)) :=
  ⟨by decide,
   afs_constant_positions_never_record sampleAbortConsts ⟨0, false⟩
     (-ETIMEDOUT) 0 (CExpr.atom 0) CStmt.skip CStmt.skip (by decide)⟩

/-- `getLast?` only looks at the last element, so it respects
componentwise `getLast?`-agreement of appended lists. -/
theorem getLast?_append_congr {a a' b b' : List last_err}
    (ha : a.getLast? = a'.getLast?) (hb : b.getLast? = b'.getLast?) :
    (a ++ b).getLast? = (a' ++ b').getLast? := by
  cases b with
  | nil =>
    cases b' with
    | nil => simpa using ha
    | cons y ys =>
      rw [List.getLast?_eq_getLast_of_ne_nil (List.cons_ne_nil y ys)] at hb
      simp at hb
  | cons x xs =>
    cases b' with
    | nil =>
      rw [List.getLast?_eq_getLast_of_ne_nil (List.cons_ne_nil x xs)] at hb
      simp at hb
    | cons y ys =>
      rw [List.getLast?_append_of_ne_nil _ (List.cons_ne_nil x xs),
          List.getLast?_append_of_ne_nil _ (List.cons_ne_nil y ys)]
      exact hb

/-- Appending a singleton fixes `getLast?`. -/
theorem getLast?_append_singleton (L : List last_err) (x : last_err) :
    (L ++ [x]).getLast? = some x := by
  rw [List.getLast?_append_of_ne_nil _ (List.cons_ne_nil x [])]
  rfl

/-- The rewrite never changes the value of an rvalue: `ERR(E)`
evaluates to `E`. -/
theorem evalExpr_wrapExpr_val (f : String) (l : Nat) (e : CExpr) :
    (evalExpr f l (wrapExpr e)).1 = (evalExpr f l e).1 := by
  induction e with
  | const listed v => cases listed <;> rfl
  | neg a ih => simp [wrapExpr, evalExpr, ih]
  | err a ih => simp [wrapExpr, evalExpr, ih]
  | atom v => rfl

/-- After one more application of the rewrite, an rvalue's recordings
end in the same triple (and are empty exactly when they were). -/
theorem evalExpr_wrap_wrap_getLast (f : String) (l : Nat) (e : CExpr) :
    (evalExpr f l (wrapExpr (wrapExpr e))).2.getLast?
      = (evalExpr f l (wrapExpr e)).2.getLast? := by
  induction e with
  | const listed v =>
    cases listed
    · rfl
    · simp [wrapExpr, evalExpr]
  | neg a ih => simpa [wrapExpr, evalExpr] using ih
  | err a ih =>
    have hv : (evalExpr f l (wrapExpr (wrapExpr a))).1
        = (evalExpr f l (wrapExpr a)).1 :=
      evalExpr_wrapExpr_val f l (wrapExpr a)
    simp only [wrapExpr, evalExpr]
    refine getLast?_append_congr ?_ ih
    rw [getLast?_append_singleton, getLast?_append_singleton, hv]
  | atom v => rfl

/-- Applying the rewrite twice produces the same rvalues as applying
it once. -/
theorem evalStmt_wrap_wrap_val (f : String) (l : Nat) (x : Int)
    (s : CStmt) :
    (evalStmt f l x (wrapStmt (wrapStmt s))).1
      = (evalStmt f l x (wrapStmt s)).1 := by
  induction s with
  | assign r => simp [wrapStmt, evalStmt, evalExpr_wrapExpr_val f l (wrapExpr r)]
  | declInit r => simp [wrapStmt, evalStmt, evalExpr_wrapExpr_val f l (wrapExpr r)]
  | ret r => simp [wrapStmt, evalStmt, evalExpr_wrapExpr_val f l (wrapExpr r)]
  | ifEqConst c t e iht ihe =>
    by_cases hx : x = (evalExpr f l c).1
    · subst hx
      simp [wrapStmt, evalStmt, iht, ihe]
    · simp [wrapStmt, evalStmt, hx, iht, ihe]
  | switchCase c b ih =>
    by_cases hx : x = (evalExpr f l c).1
    · subst hx
      simp [wrapStmt, evalStmt, ih]
    · simp [wrapStmt, evalStmt, hx, ih]
  | seq a b iha ihb => simp [wrapStmt, evalStmt, iha, ihb]
  | skip => rfl

/-- Applying the rewrite twice leaves the same final recording as
applying it once. -/
theorem evalStmt_wrap_wrap_getLast (f : String) (l : Nat) (x : Int)
    (s : CStmt) :
    (evalStmt f l x (wrapStmt (wrapStmt s))).2.getLast?
      = (evalStmt f l x (wrapStmt s)).2.getLast? := by
  induction s with
  | assign r => simpa [wrapStmt, evalStmt] using evalExpr_wrap_wrap_getLast f l r
  | declInit r => simpa [wrapStmt, evalStmt] using evalExpr_wrap_wrap_getLast f l r
  | ret r => simpa [wrapStmt, evalStmt] using evalExpr_wrap_wrap_getLast f l r
  | ifEqConst c t e iht ihe =>
    by_cases hx : x = (evalExpr f l c).1
    · subst hx
      simp only [wrapStmt, evalStmt, if_pos rfl]
      exact getLast?_append_congr rfl iht
    · simp only [wrapStmt, evalStmt, if_neg hx]
      exact getLast?_append_congr rfl ihe
  | switchCase c b ih =>
    by_cases hx : x = (evalExpr f l c).1
    · subst hx
      simp only [wrapStmt, evalStmt, if_pos rfl]
      exact getLast?_append_congr rfl ih
    · simp [wrapStmt, evalStmt, hx]
  | seq a b iha ihb =>
    simp only [wrapStmt, evalStmt]
    exact getLast?_append_congr iha ihb
  | skip => rfl

/-- **C9 counterexample.** The transformation is not textually
idempotent: re-running it on the already-wrapped `return ERR(EBUSY);`
matches the listed constant `EBUSY` inside the rvalue again and
produces the double-wrapped `return ERR(ERR(EBUSY));`. -/
theorem spatch_double_wraps :
    wrapStmt (wrapStmt (CStmt.ret (CExpr.const true EBUSY)))
        ≠ wrapStmt (CStmt.ret (CExpr.const true EBUSY))
      ∧ wrapStmt (wrapStmt (CStmt.ret (CExpr.const true EBUSY)))
          = CStmt.ret (CExpr.err (CExpr.err (CExpr.const true EBUSY))) := by
  exact ⟨by decide, rfl⟩

/-- **C9 (amended).** Re-running the call-site transformation over
already-wrapped source can double-wrap textually (`ERR(ERR(E))`), but
applying it twice is behaviorally identical to applying it once: for
every statement, the rvalues produced and the final content of the
recording slot are the same, because `ERR` is value-transparent and
re-records the same triple at the same location. -/
theorem spatch_behaviorally_idempotent (f : String) (l : Nat) (x : Int)
    (s : CStmt) :
    stmtBehavior f l x (wrapStmt (wrapStmt s))
      = stmtBehavior f l x (wrapStmt s) := by
  have h1 := evalStmt_wrap_wrap_val f l x s
  have h2 := evalStmt_wrap_wrap_getLast f l x s
  simp [stmtBehavior, h1, h2]
